import Mathlib

/-!
Shallow embedding of the persistence and aggregation core of the Sumly
budgeting app (`src/Sumly/lib/database.ts`), together with theorems checking
the natural-language specification against it.

Modelling conventions:
* The SQLite store is a pure `DB` value: a list of category rows and a list
  of transaction rows, plus the AUTOINCREMENT counters.
* Monetary amounts (SQLite `REAL`) are modelled as `Int`; the claims under
  study concern signs, absolute values and exact sums, on which real and
  integer arithmetic agree.
* SQLite TEXT comparison (used by `BETWEEN` on `occurred_on` and by
  `ORDER BY c.type DESC`) is lexicographic byte order, modelled by
  `charListLt` on the strings' character lists.
* Each repository operation returns the persisted state together with an
  `Except String` result, mirroring "the write either fully succeeds or
  fully fails" per SQL statement; thrown JS errors are `Except.error` with
  the message the code throws.  The schema runs `PRAGMA foreign_keys = ON`,
  so an INSERT/UPDATE placing a non-null dangling `category_id` fails with
  SQLite's FOREIGN KEY error; this is part of the model.
* JS `Date` month/day arithmetic (`new Date(y, m, d)` with out-of-range
  month or day, as used by `monthBounds`) is modelled on a month index
  `12*y + m` with the ECMAScript normalization rules, including the Date
  constructor's remap of year arguments 0..99 to 1900+y; `toISOString` is
  modelled at UTC (zero offset) for years 0..9999.
-/

/-- Category type enum, column `type TEXT CHECK (type IN ('income','expense'))`. -/
inductive CategoryType where
  | income
  | expense
deriving DecidableEq, Repr

/-- A row of the `categories` table. -/
structure CategoryRow where
  id : Nat
  name : String
  type : CategoryType
  color : String
  createdAt : String
deriving DecidableEq, Repr

/-- A row of the `transactions` table. -/
structure TransactionRow where
  id : Nat
  description : String
  amount : Int
  occurredOn : String
  categoryId : Option Nat
  createdAt : String
deriving DecidableEq, Repr

/-- The persisted store: both tables plus the AUTOINCREMENT counters. -/
structure DB where
  categories : List CategoryRow
  transactions : List TransactionRow
  nextCatId : Nat
  nextTxId : Nat
deriving DecidableEq, Repr

/-- Input shape `CategoryInput` of the source. -/
structure CategoryInput where
  name : String
  type : CategoryType
  color : Option String
deriving DecidableEq, Repr

/-- Input shape `TransactionInput` of the source.  A `categoryId` that is not
a number in the JS input is modelled as `none`. -/
structure TransactionInput where
  description : String
  amount : Int
  occurredOn : String
  categoryId : Option Nat
  type : CategoryType
deriving DecidableEq, Repr

/-- Result shape of `mapTransactionRow`: a transaction joined with its
category's name and type. -/
structure TransactionRecord where
  id : Nat
  description : String
  amount : Int
  occurredOn : String
  categoryId : Option Nat
  categoryName : Option String
  categoryType : Option CategoryType
  createdAt : String
deriving DecidableEq, Repr

/-- Result shape of `fetchMonthlyTotals`. -/
structure MonthlyTotals where
  income : Int
  expenses : Int
  balance : Int
deriving DecidableEq, Repr

/-- Result shape of `fetchMonthlyTotalsByCategory` rows. -/
structure CategoryMonthlyTotal where
  categoryId : Nat
  categoryName : String
  categoryType : CategoryType
  total : Int
deriving DecidableEq, Repr

/-- Lexicographic strict order on character lists: SQLite's binary TEXT
comparison (a proper prefix sorts first). -/
def charListLt : List Char → List Char → Bool
  | _, [] => false
  | [], _ :: _ => true
  | a :: as, b :: bs => a < b || (a == b && charListLt as bs)

/-- Strict TEXT order on strings. -/
def strLt (a b : String) : Bool := charListLt a.data b.data

/-- Non-strict TEXT order on strings. -/
def strLe (a b : String) : Bool := !(strLt b a)

/-- The TEXT stored for a `CategoryType` value. -/
def typeText : CategoryType → String
  | .income => "income"
  | .expense => "expense"

/-- Whitespace test of JS `String.prototype.trim` (ASCII part). -/
def jsWhitespace (c : Char) : Bool := c = ' ' || c = '\t' || c = '\n' || c = '\r'

/-- Model of JS `trim`: removes leading and trailing whitespace. -/
def jsTrim (s : String) : String :=
  ⟨((s.data.dropWhile jsWhitespace).reverse.dropWhile jsWhitespace).reverse⟩

/-- Message thrown when an INSERT or UPDATE violates the
`REFERENCES categories(id)` constraint (with `PRAGMA foreign_keys = ON`). -/
def fkErrorMessage : String := "FOREIGN KEY constraint failed"

/-- Message the repository throws after catching a UNIQUE violation on
`categories.name`. -/
def duplicateNameMessage : String := "A category with that name already exists."

/-- Lookup `SELECT ... FROM categories WHERE id = $id`. -/
def findCategory (db : DB) (cid : Nat) : Option CategoryRow :=
  db.categories.find? (fun c => c.id == cid)

/-- Color defaulting of `createCategory`/`updateCategory`:
`(input.color ?? '').trim() || (type === 'expense' ? '#c62828' : '#2e7d32')`. -/
def defaultColor (input : CategoryInput) : String :=
  let c := jsTrim (input.color.getD "")
  if c = "" then (if input.type = .expense then "#c62828" else "#2e7d32") else c

/-- The source's `createCategory`: trims the name, rejects an empty name,
defaults the color, inserts, and translates a UNIQUE violation on the stored
name into `duplicateNameMessage`.  A failed statement leaves the store
unchanged. -/
def createCategory (db : DB) (input : CategoryInput) (now : String) :
    DB × Except String CategoryRow :=
  let name := jsTrim input.name
  if name = "" then (db, .error "Category name is required")
  else if db.categories.any (fun c => c.name == name) then
    (db, .error duplicateNameMessage)
  else
    let row : CategoryRow :=
      { id := db.nextCatId, name := name, type := input.type,
        color := defaultColor input, createdAt := now }
    ({ db with categories := db.categories ++ [row], nextCatId := db.nextCatId + 1 },
     .ok row)

/-- Sign normalization applied to a stored amount by the category-type
cascade: `CASE WHEN $type = 'expense' THEN -ABS(amount) ELSE ABS(amount) END`. -/
def cascadeAmount (ty : CategoryType) (a : Int) : Int :=
  if ty = .expense then -|a| else |a|

/-- The cascade statement of `updateCategory`: rewrites the amount of every
transaction whose `category_id` equals `id`, leaving all other rows as they
are. -/
def applyCascade (ty : CategoryType) (id : Nat) (ts : List TransactionRow) :
    List TransactionRow :=
  ts.map (fun t => if t.categoryId = some id then { t with amount := cascadeAmount ty t.amount } else t)

/-- The source's `updateCategory`: validates the name, runs the UPDATE on the
category row (a UNIQUE violation against another row's name throws
`duplicateNameMessage`; zero matched rows throws "Category not found."),
then runs the cascade statement, then reloads the row. -/
def updateCategory (db : DB) (id : Nat) (input : CategoryInput) :
    DB × Except String CategoryRow :=
  let name := jsTrim input.name
  if name = "" then (db, .error "Category name is required")
  else if ¬ db.categories.any (fun c => c.id == id) then
    (db, .error "Category not found.")
  else if db.categories.any (fun c => c.name == name && c.id != id) then
    (db, .error duplicateNameMessage)
  else
    let cats := db.categories.map (fun c =>
      if c.id = id then { c with name := name, type := input.type, color := defaultColor input } else c)
    let db' : DB := { db with categories := cats,
                              transactions := applyCascade input.type id db.transactions }
    match db'.categories.find? (fun c => c.id == id) with
    | some c => (db', .ok c)
    | none => (db', .error "Unable to load updated category")

/-- Execution of `updateCategory` in which the cascade UPDATE statement
throws (e.g. a storage I/O error).  The source issues the category-row
UPDATE and the cascade as two separate statements with no enclosing
transaction, so the state persisted at the point of failure keeps the
already-committed category-row update while the transactions are untouched,
and the error propagates to the caller. -/
def updateCategoryCascadeFails (db : DB) (id : Nat) (input : CategoryInput) :
    DB × Except String CategoryRow :=
  let name := jsTrim input.name
  if name = "" then (db, .error "Category name is required")
  else if ¬ db.categories.any (fun c => c.id == id) then
    (db, .error "Category not found.")
  else if db.categories.any (fun c => c.name == name && c.id != id) then
    (db, .error duplicateNameMessage)
  else
    let cats := db.categories.map (fun c =>
      if c.id = id then { c with name := name, type := input.type, color := defaultColor input } else c)
    ({ db with categories := cats }, .error "disk I/O error")

/-- Effective-type and amount resolution shared by `createTransaction` and
`updateTransaction` (source lines 264-280 and 316-332): start from
`Math.abs(amount)`; with a non-null `categoryId` whose lookup succeeds use
the category's type to sign the amount; with a null `categoryId` use the
caller's type; with a dangling `categoryId` neither branch fires and the
amount stays `Math.abs(amount)` with a null resolved type. -/
def resolveTypeAmount (db : DB) (input : TransactionInput) :
    Option CategoryType × Int :=
  match input.categoryId with
  | some cid =>
    match findCategory db cid with
    | some c => (some c.type, if c.type = .expense then -|input.amount| else |input.amount|)
    | none => (none, |input.amount|)
  | none => (some input.type, if input.type = .expense then -|input.amount| else |input.amount|)

/-- Whether writing `categoryId` into a transaction row violates the
foreign key `REFERENCES categories(id)` (enforced by `PRAGMA foreign_keys = ON`). -/
def fkViolation (db : DB) (categoryId : Option Nat) : Bool :=
  match categoryId with
  | some cid => (findCategory db cid).isNone
  | none => false

/-- LEFT JOIN reload of a transaction row with its category's name and type,
as in `mapTransactionRow` over the post-write SELECT. -/
def joinRecord (db : DB) (t : TransactionRow) : TransactionRecord :=
  let c := match t.categoryId with
    | some cid => findCategory db cid
    | none => none
  { id := t.id, description := t.description, amount := t.amount,
    occurredOn := t.occurredOn, categoryId := t.categoryId,
    categoryName := c.map (·.name), categoryType := c.map (·.type),
    createdAt := t.createdAt }

/-- The source's `createTransaction`: resolves the effective type and
normalized amount, defaults an empty `occurredOn` to today's date, inserts
the row (the INSERT throws the FOREIGN KEY error when `categoryId` is
non-null and dangling), reloads it with the joined category data, and
overrides the joined type with the resolved one when that is non-null. -/
def createTransaction (db : DB) (input : TransactionInput) (now today : String) :
    DB × Except String TransactionRecord :=
  let resolved := resolveTypeAmount db input
  let occurredOn := if input.occurredOn = "" then today else input.occurredOn
  if fkViolation db input.categoryId then (db, .error fkErrorMessage)
  else
    let row : TransactionRow :=
      { id := db.nextTxId, description := input.description, amount := resolved.2,
        occurredOn := occurredOn, categoryId := input.categoryId, createdAt := now }
    let db' : DB := { db with transactions := db.transactions ++ [row],
                              nextTxId := db.nextTxId + 1 }
    let j := joinRecord db' row
    (db', .ok { j with categoryType := resolved.1 <|> j.categoryType })

/-- The source's `updateTransaction`: same resolution and `occurredOn`
defaulting as create; the UPDATE matches rows by id (zero matched rows
throws "Transaction not found.", a matched row with a dangling non-null
`categoryId` throws the FOREIGN KEY error and writes nothing), then the row
is reloaded with joined category data. -/
def updateTransaction (db : DB) (id : Nat) (input : TransactionInput) (today : String) :
    DB × Except String TransactionRecord :=
  let resolved := resolveTypeAmount db input
  let occurredOn := if input.occurredOn = "" then today else input.occurredOn
  if ¬ db.transactions.any (fun t => t.id == id) then
    (db, .error "Transaction not found.")
  else if fkViolation db input.categoryId then (db, .error fkErrorMessage)
  else
    let txs := db.transactions.map (fun t =>
      if t.id = id then
        { t with description := input.description, amount := resolved.2,
                 occurredOn := occurredOn, categoryId := input.categoryId }
      else t)
    let db' : DB := { db with transactions := txs }
    match txs.find? (fun t => t.id == id) with
    | some t =>
      let j := joinRecord db' t
      (db', .ok { j with categoryType := resolved.1 <|> j.categoryType })
    | none => (db', .error "Unable to load updated transaction")

/-- The source's `deleteTransaction`: `DELETE FROM transactions WHERE id = $id`;
never throws, whether or not a row matches. -/
def deleteTransaction (db : DB) (id : Nat) : DB × Except String Unit :=
  ({ db with transactions := db.transactions.filter (fun t => t.id != id) }, .ok ())

/-- JS `Date` leap-year rule (proleptic Gregorian). -/
def isLeap (y : Int) : Bool := (y % 4 == 0 && y % 100 != 0) || y % 400 == 0

/-- Number of days of month `m` (0-based, JS convention: 1 is February) in
year `y`. -/
def monthLength (y m : Int) : Int :=
  if m = 1 then (if isLeap y then 29 else 28)
  else if m = 3 ∨ m = 5 ∨ m = 8 ∨ m = 10 then 30
  else 31

/-- Days of the month denoted by the month index `ym = 12*year + month`. -/
def dimYM (ym : Int) : Int := monthLength (ym.fdiv 12) (ym.emod 12)

/-- One-step day normalization of a (month index, day) pair, ECMAScript
`MakeDay` style: a day below 1 borrows from the previous month, a day above
the month's length carries into the next month.  Structural on `fuel`. -/
def normDayAux : Nat → Int → Int → Int × Int
  | 0, ym, d => (ym, d)
  | fuel + 1, ym, d =>
    if d < 1 then normDayAux fuel (ym - 1) (d + dimYM (ym - 1))
    else if d > dimYM ym then normDayAux fuel (ym + 1) (d - dimYM ym)
    else (ym, d)

/-- Normalized (month index, day) for `new Date(year, month, day)`.  Each
borrow or carry step moves the day at least 28 closer to range, so the fuel
`d.natAbs + 2` always suffices. -/
def normDay (ym d : Int) : Int × Int := normDayAux (d.natAbs + 2) ym d

/-- JS `new Date(y, m, d)` reduced to its calendar components: a year
argument 0..99 is first remapped to 1900+y (the ECMAScript two-digit-year
rule of the Date constructor), months normalize into years via the month
index `12*year + m`, then the day normalizes. -/
def mkJSDate (y m d : Int) : Int × Int :=
  let yr := if 0 ≤ y ∧ y ≤ 99 then 1900 + y else y
  normDay (yr * 12 + m) d

/-- Two-digit zero-padded decimal rendering, as in `toISOString` month/day
fields. -/
def pad2 (n : Int) : String := if n < 10 then "0" ++ toString n else toString n

/-- Four-digit zero-padded decimal rendering, as in the `toISOString` year
field for years 0..9999. -/
def pad4 (n : Int) : String :=
  if n < 10 then "000" ++ toString n
  else if n < 100 then "00" ++ toString n
  else if n < 1000 then "0" ++ toString n
  else toString n

/-- The source's `toDateOnlyString` (`date.toISOString().slice(0, 10)`) on a
normalized (month index, day) pair, at UTC. -/
def toDateOnlyString (ym d : Int) : String :=
  pad4 (ym.fdiv 12) ++ "-" ++ pad2 (ym.emod 12 + 1) ++ "-" ++ pad2 d

/-- The source's `monthBounds`: day 1 of the target's month and day 0 of the
following month (which JS `Date` normalizes to the last day of the target's
month), both rendered as date-only strings. -/
def monthBounds (year month : Int) : String × String :=
  let s := mkJSDate year month 1
  let e := mkJSDate year (month + 1) 0
  (toDateOnlyString s.1 s.2, toDateOnlyString e.1 e.2)

/-- The `BETWEEN $start AND $end` filter on `occurred_on` (inclusive TEXT
comparison). -/
def txInRange (s e : String) (t : TransactionRow) : Bool :=
  strLe s t.occurredOn && strLe t.occurredOn e

/-- The source's `fetchMonthlyTotals` aggregation over a window: the SQL
sums `CASE WHEN amount >= 0 THEN amount ELSE 0` and
`CASE WHEN amount < 0 THEN amount ELSE 0` over the rows in range (`?? 0`
turns the empty-window NULL into 0), then the JS wraps the negative sum in
`Math.abs` and subtracts. -/
def fetchMonthlyTotals (db : DB) (s e : String) : MonthlyTotals :=
  let rows := db.transactions.filter (txInRange s e)
  let income := (rows.map (fun t => if 0 ≤ t.amount then t.amount else 0)).sum
  let negatives := (rows.map (fun t => if t.amount < 0 then t.amount else 0)).sum
  { income := income, expenses := |negatives|, balance := income - |negatives| }

/-- Sum of the stored amounts of the window transactions linked to category
`cid` (the `SUM(t.amount)` of one GROUP BY group). -/
def categorySum (db : DB) (s e : String) (cid : Nat) : Int :=
  ((db.transactions.filter (fun t => t.categoryId == some cid && txInRange s e t)).map
    (·.amount)).sum

/-- Whether category `cid` has at least one window transaction, i.e. whether
the inner JOIN produces a group for it. -/
def categoryHasTx (db : DB) (s e : String) (cid : Nat) : Bool :=
  db.transactions.any (fun t => t.categoryId == some cid && txInRange s e t)

/-- Order of `ORDER BY c.type DESC, total DESC` on (category, summed total)
pairs: the stored type TEXT descending, then the raw sum descending. -/
def catOrder (a b : CategoryRow × Int) : Prop :=
  strLt (typeText b.1.type) (typeText a.1.type) = true ∨
    (typeText a.1.type = typeText b.1.type ∧ b.2 ≤ a.2)

instance : DecidableRel catOrder := fun a b => by
  unfold catOrder
  infer_instance

/-- The source's `fetchMonthlyTotalsByCategory`: inner-joins window
transactions with categories (rows with a null or dangling `category_id`
drop out), groups by category, sums the stored amounts, orders by type TEXT
descending then raw total descending, and finally negates the total of each
expense category in the JS mapping layer. -/
def fetchMonthlyTotalsByCategory (db : DB) (s e : String) :
    List CategoryMonthlyTotal :=
  let groups := (db.categories.filter (fun c => categoryHasTx db s e c.id)).map
    (fun c => (c, categorySum db s e c.id))
  (groups.insertionSort catOrder).map (fun g =>
    { categoryId := g.1.id, categoryName := g.1.name, categoryType := g.1.type,
      total := if g.1.type = .expense then -g.2 else g.2 })

instance : IsTrans (CategoryRow × Int) catOrder := by
  constructor
  intro a b c hab hbc
  have hie : strLt "income" "expense" = false := by decide
  have hei : strLt "expense" "income" = true := by decide
  have hii : strLt "income" "income" = false := by decide
  have hee : strLt "expense" "expense" = false := by decide
  have hne : ("income" : String) ≠ "expense" := by decide
  have hne' : ("expense" : String) ≠ "income" := by decide
  rcases a with ⟨a1, a2⟩; rcases b with ⟨b1, b2⟩; rcases c with ⟨c1, c2⟩
  rcases ha : a1.type <;> rcases hb : b1.type <;> rcases hc : c1.type <;>
    simp_all [catOrder, typeText] <;> omega

instance : IsTotal (CategoryRow × Int) catOrder := by
  constructor
  intro a b
  have hie : strLt "income" "expense" = false := by decide
  have hei : strLt "expense" "income" = true := by decide
  have hii : strLt "income" "income" = false := by decide
  have hee : strLt "expense" "expense" = false := by decide
  have hne : ("income" : String) ≠ "expense" := by decide
  have hne' : ("expense" : String) ≠ "income" := by decide
  rcases a with ⟨a1, a2⟩; rcases b with ⟨b1, b2⟩
  rcases ha : a1.type <;> rcases hb : b1.type <;>
    simp_all [catOrder, typeText] <;> omega

/-- Example store for the monthly-totals scenario of the spec: one month
(March 2024) containing exactly the stored amounts +1000, -200 and -50. -/
def marchDb : DB :=
  { categories := [],
    transactions :=
      [ { id := 1, description := "salary", amount := 1000, occurredOn := "2024-03-01",
          categoryId := none, createdAt := "t1" },
        { id := 2, description := "rent", amount := -200, occurredOn := "2024-03-10",
          categoryId := none, createdAt := "t2" },
        { id := 3, description := "coffee", amount := -50, occurredOn := "2024-03-31",
          categoryId := none, createdAt := "t3" } ],
    nextCatId := 1, nextTxId := 4 }

/-- Store with no transactions at all. -/
def emptyDb : DB := { categories := [], transactions := [], nextCatId := 1, nextTxId := 1 }

/-- Store holding one uncategorized transaction and no categories, so any
non-null `categoryId` in an input is dangling. -/
def danglingDb : DB :=
  { categories := [],
    transactions :=
      [ { id := 1, description := "old", amount := 5, occurredOn := "2024-01-01",
          categoryId := none, createdAt := "t0" } ],
    nextCatId := 1, nextTxId := 2 }

/-- Transaction input carrying a dangling category reference and caller type
expense. -/
def danglingInput : TransactionInput :=
  { description := "lunch", amount := 100, occurredOn := "2024-03-10",
    categoryId := some 7, type := .expense }

/-- Store with an income category and one linked transaction of amount +100,
plus one unlinked transaction of amount -7. -/
def payDb : DB :=
  { categories :=
      [ { id := 1, name := "Pay", type := .income, color := "#2e7d32", createdAt := "t0" } ],
    transactions :=
      [ { id := 1, description := "salary", amount := 100, occurredOn := "2024-03-01",
          categoryId := some 1, createdAt := "t0" },
        { id := 2, description := "cash gift", amount := -7, occurredOn := "2024-03-02",
          categoryId := none, createdAt := "t0" } ],
    nextCatId := 2, nextTxId := 3 }

/-- Category input retyping "Pay" to expense. -/
def payExpenseInput : CategoryInput := { name := "Pay", type := .expense, color := none }

/-- Store with a single expense category and no transactions. -/
def groceriesDb : DB :=
  { categories :=
      [ { id := 3, name := "Groceries", type := .expense, color := "#c62828", createdAt := "t0" } ],
    transactions := [], nextCatId := 4, nextTxId := 1 }

/-- Transaction input whose caller-supplied type (income) disagrees with the
linked category's type (expense) and whose amount is positive. -/
def groceriesInput : TransactionInput :=
  { description := "food", amount := 75, occurredOn := "2024-03-04",
    categoryId := some 3, type := .income }

/-- Store with one income and one expense category and a month of March 2024
transactions: two linked to each category and one uncategorized. -/
def mixedDb : DB :=
  { categories :=
      [ { id := 1, name := "Salary", type := .income, color := "#2e7d32", createdAt := "t0" },
        { id := 2, name := "Groceries", type := .expense, color := "#c62828", createdAt := "t0" } ],
    transactions :=
      [ { id := 1, description := "pay", amount := 1000, occurredOn := "2024-03-01",
          categoryId := some 1, createdAt := "t1" },
        { id := 2, description := "market", amount := -200, occurredOn := "2024-03-10",
          categoryId := some 2, createdAt := "t2" },
        { id := 3, description := "fruit", amount := -50, occurredOn := "2024-03-12",
          categoryId := some 2, createdAt := "t3" },
        { id := 4, description := "found coin", amount := 5, occurredOn := "2024-03-20",
          categoryId := none, createdAt := "t4" } ],
    nextCatId := 3, nextTxId := 5 }

/-- Category input colliding (after trimming) with the stored name
"Groceries" of `mixedDb`. -/
def groceriesDupInput : CategoryInput :=
  { name := "  Groceries ", type := .income, color := none }

/-- Transaction-update input with an empty `occurredOn`. -/
def emptyDateInput : TransactionInput :=
  { description := "edited", amount := 20, occurredOn := "",
    categoryId := none, type := .income }

/-- C9: deleting a transaction never errors, removes every row carrying the
given id, and a second delete of the same id also succeeds and leaves the
store exactly as after the first. -/
theorem deleteTransaction_idempotent (db : DB) (id : Nat) :
    (deleteTransaction db id).2 = Except.ok () ∧
    (∀ t ∈ (deleteTransaction db id).1.transactions, t.id ≠ id) ∧
    deleteTransaction (deleteTransaction db id).1 id = deleteTransaction db id := by
  refine ⟨rfl, ?_, ?_⟩
  · intro t ht
    have hmem := List.of_mem_filter ht
    simpa using hmem
  · unfold deleteTransaction
    simp [List.filter_filter]

/-- Witness for C9 at a concrete store and id. -/
theorem deleteTransaction_idempotent_witness :
    (deleteTransaction marchDb 2).2 = Except.ok () ∧
    deleteTransaction (deleteTransaction marchDb 2).1 2 = deleteTransaction marchDb 2 :=
  ⟨(deleteTransaction_idempotent marchDb 2).1,
   (deleteTransaction_idempotent marchDb 2).2.2⟩

/-- C8: creating a category whose trimmed name equals the stored name of an
existing category fails with the duplicate-name message translated from the
UNIQUE constraint violation, and the store (hence the existing category's
fields) is unchanged. -/
theorem createCategory_duplicate_name (db : DB) (input : CategoryInput) (now : String)
    (hne : jsTrim input.name ≠ "")
    (hdup : ∃ c ∈ db.categories, c.name = jsTrim input.name) :
    createCategory db input now = (db, Except.error duplicateNameMessage) := by
  obtain ⟨c, hc, hname⟩ := hdup
  unfold createCategory
  rw [if_neg hne, if_pos]
  exact List.any_eq_true.mpr ⟨c, hc, by simp [hname]⟩

/-- Witness for C8: a second "Groceries" (with surrounding whitespace in the
input) collides with the stored "Groceries" of the concrete store. -/
theorem createCategory_duplicate_name_witness :
    createCategory mixedDb groceriesDupInput "t9" =
      (mixedDb, Except.error duplicateNameMessage) :=
  createCategory_duplicate_name mixedDb groceriesDupInput "t9" (by decide)
    ⟨{ id := 2, name := "Groceries", type := .expense, color := "#c62828", createdAt := "t0" },
     by decide, by decide⟩

/-- C6 (code evaluated at the failing input): when the cascade statement of
`updateCategory` fails, the already-committed category-row update is not
rolled back — the error propagates while the store holds the new category
type next to a linked transaction that still has its old positive amount. -/
theorem updateCategory_cascade_failure_keeps_new_type :
    (updateCategoryCascadeFails payDb 1 payExpenseInput).2 =
      Except.error "disk I/O error" ∧
    (∃ c ∈ (updateCategoryCascadeFails payDb 1 payExpenseInput).1.categories,
      c.id = 1 ∧ c.type = .expense) ∧
    (∃ t ∈ (updateCategoryCascadeFails payDb 1 payExpenseInput).1.transactions,
      t.id = 1 ∧ t.categoryId = some 1 ∧ t.amount = 100) := by
  refine ⟨rfl, by decide, by decide⟩

/-- C4 (counterexample): with a dangling non-null category reference the
claimed fallback does not happen — the write is rejected by the FOREIGN KEY
constraint, for create and update alike, and nothing is stored. -/
theorem transaction_dangling_category_fails_cex :
    (createTransaction danglingDb danglingInput "t1" "2024-03-15").2 =
      Except.error fkErrorMessage ∧
    (createTransaction danglingDb danglingInput "t1" "2024-03-15").1 = danglingDb ∧
    (updateTransaction danglingDb 1 danglingInput "2024-03-15").2 =
      Except.error fkErrorMessage := by
  exact ⟨rfl, rfl, rfl⟩

/-- C4 (amended): for a non-null `categoryId` that resolves to no category,
the type resolution leaves the amount at `+|amount|` with a null resolved
type (no fallback to the caller-supplied type), and the subsequent INSERT or
row-matching UPDATE fails with the FOREIGN KEY error, leaving the store
unchanged. -/
theorem transaction_dangling_category_fk_error (db : DB) (input : TransactionInput)
    (now today : String) (cid : Nat)
    (hcid : input.categoryId = some cid) (hmiss : findCategory db cid = none) :
    resolveTypeAmount db input = (none, |input.amount|) ∧
    createTransaction db input now today = (db, Except.error fkErrorMessage) ∧
    ∀ id, (∃ t ∈ db.transactions, t.id = id) →
      updateTransaction db id input today = (db, Except.error fkErrorMessage) := by
  have hfk : fkViolation db input.categoryId = true := by
    simp [fkViolation, hcid, hmiss]
  refine ⟨?_, ?_, ?_⟩
  · simp [resolveTypeAmount, hcid, hmiss]
  · unfold createTransaction
    rw [if_pos hfk]
  · intro id hex
    obtain ⟨t, ht, hid⟩ := hex
    have hany : db.transactions.any (fun t => t.id == id) = true :=
      List.any_eq_true.mpr ⟨t, ht, by simp [hid]⟩
    unfold updateTransaction
    rw [if_neg (by simp [hany]), if_pos hfk]

/-- Witness for C4's amended theorem at a concrete store and input. -/
theorem transaction_dangling_category_fk_error_witness :
    resolveTypeAmount danglingDb danglingInput = (none, 100) ∧
    createTransaction danglingDb danglingInput "t1" "2024-03-15" =
      (danglingDb, Except.error fkErrorMessage) ∧
    updateTransaction danglingDb 1 danglingInput "2024-03-15" =
      (danglingDb, Except.error fkErrorMessage) := by
  have h := transaction_dangling_category_fk_error danglingDb danglingInput
    "t1" "2024-03-15" 7 rfl (by decide)
  exact ⟨h.1, h.2.1, h.2.2 1
    ⟨{ id := 1, description := "old", amount := 5, occurredOn := "2024-01-01",
       categoryId := none, createdAt := "t0" }, by decide, by decide⟩⟩

/-- C1: a transaction created against an existing category stores an amount
whose sign matches the category's type — strictly negative for an expense
category (for nonzero input magnitude) and non-negative for an income
category — regardless of the caller-supplied sign and type. -/
theorem createTransaction_sign_matches_category (db : DB) (input : TransactionInput)
    (now today : String) (cid : Nat) (c : CategoryRow)
    (hcid : input.categoryId = some cid) (hc : findCategory db cid = some c) :
    ∃ db' rec, createTransaction db input now today = (db', Except.ok rec) ∧
      rec.amount = (if c.type = .expense then -|input.amount| else |input.amount|) ∧
      (c.type = .expense → input.amount ≠ 0 → rec.amount < 0) ∧
      (c.type = .income → 0 ≤ rec.amount) ∧
      (∃ t ∈ db'.transactions, t.id = rec.id ∧ t.amount = rec.amount) := by
  have hfk : fkViolation db input.categoryId = false := by
    simp [fkViolation, hcid, hc]
  have hres : resolveTypeAmount db input =
      (some c.type, if c.type = .expense then -|input.amount| else |input.amount|) := by
    simp only [resolveTypeAmount, hcid, hc]
  rcases hty : c.type with _ | _
  · have hres' : resolveTypeAmount db input = (some c.type, |input.amount|) := by
      rw [hres, hty]
      simp
    simp only [createTransaction, hres', hfk, Bool.false_eq_true, if_false]
    refine ⟨_, _, rfl, ?_, ?_, ?_, ?_⟩
    · simp [joinRecord, hty]
    · intro he
      exact absurd he (by decide)
    · intro _
      simp [joinRecord]
    · refine ⟨_, List.mem_append_right _ (List.mem_singleton.mpr rfl), ?_, ?_⟩
      · simp [joinRecord]
      · simp [joinRecord]
  · have hres' : resolveTypeAmount db input = (some c.type, -|input.amount|) := by
      rw [hres, hty]
      simp
    simp only [createTransaction, hres', hfk, Bool.false_eq_true, if_false]
    refine ⟨_, _, rfl, ?_, ?_, ?_, ?_⟩
    · simp [joinRecord, hty]
    · intro _ h0
      have h1 : 0 < |input.amount| := abs_pos.mpr h0
      have h2 : -|input.amount| < 0 := by omega
      simpa [joinRecord] using h2
    · intro hi
      exact absurd hi (by decide)
    · refine ⟨_, List.mem_append_right _ (List.mem_singleton.mpr rfl), ?_, ?_⟩
      · simp [joinRecord]
      · simp [joinRecord]

/-- Witness for C1: caller supplies type income and a positive amount, but
the linked category is expense, so -75 is stored. -/
theorem createTransaction_sign_matches_category_witness :
    ∃ db' rec, createTransaction groceriesDb groceriesInput "t1" "2024-03-04" =
      (db', Except.ok rec) ∧ rec.amount = -75 ∧ rec.amount < 0 := by
  obtain ⟨db', rec, heq, hamt, hexp, hinc, hmem⟩ :=
    createTransaction_sign_matches_category groceriesDb groceriesInput "t1" "2024-03-04" 3
      { id := 3, name := "Groceries", type := .expense, color := "#c62828", createdAt := "t0" }
      rfl (by decide)
  refine ⟨db', rec, heq, ?_, hexp rfl (by decide)⟩
  rw [hamt]
  decide

/-- C10: whenever `updateTransaction` succeeds on an input whose
`occurredOn` is empty, the stored occurrence date of the row is silently
overwritten with the current date, exactly as in create's defaulting. -/
theorem updateTransaction_blank_date_overwritten (db : DB) (id : Nat)
    (input : TransactionInput) (today : String) (db' : DB) (rec : TransactionRecord)
    (hocc : input.occurredOn = "")
    (h : updateTransaction db id input today = (db', Except.ok rec)) :
    rec.occurredOn = today ∧
    ∀ t ∈ db'.transactions, t.id = id → t.occurredOn = today := by
  simp only [updateTransaction, hocc, if_pos] at h
  split at h
  · exact absurd (congrArg Prod.snd h) (by simp)
  · split at h
    · exact absurd (congrArg Prod.snd h) (by simp)
    · split at h
      case _ t hfind =>
        have hmem := List.mem_of_find?_eq_some hfind
        have hocc' : t.occurredOn = today := by
          obtain ⟨t0, ht0, hft0⟩ := List.mem_map.mp hmem
          have hid : t.id = id := by
            have hp := List.find?_some hfind
            simpa using hp
          by_cases h0 : t0.id = id
          · rw [if_pos h0] at hft0
            rw [← hft0]
          · rw [if_neg h0] at hft0
            rw [← hft0] at hid
            exact absurd hid h0
        have hdb : db' = { db with transactions := db.transactions.map (fun t =>
            if t.id = id then
              { t with description := input.description,
                       amount := (resolveTypeAmount db input).2,
                       occurredOn := today, categoryId := input.categoryId }
            else t) } := (congrArg Prod.fst h).symm
        have hrec := congrArg Prod.snd h
        simp only [Except.ok.injEq] at hrec
        constructor
        · rw [← hrec]
          simpa [joinRecord] using hocc'
        · intro t' ht' hid'
          rw [hdb] at ht'
          obtain ⟨t0, ht0, hft0⟩ := List.mem_map.mp ht'
          by_cases h0 : t0.id = id
          · rw [if_pos h0] at hft0
            rw [← hft0]
          · rw [if_neg h0] at hft0
            rw [← hft0] at hid'
            exact absurd hid' h0
      · exact absurd (congrArg Prod.snd h) (by simp)

/-- Witness for C10: updating the row with id 4 (previously dated
2024-03-20) with a blank `occurredOn` re-dates the stored row to the supplied
current date. -/
theorem updateTransaction_blank_date_overwritten_witness :
    ({ id := 4, description := "edited", amount := 20, occurredOn := "2024-06-01",
       categoryId := none, createdAt := "t4" } : TransactionRow).occurredOn = "2024-06-01" :=
  (updateTransaction_blank_date_overwritten mixedDb 4 emptyDateInput "2024-06-01"
    (updateTransaction mixedDb 4 emptyDateInput "2024-06-01").1
    { id := 4, description := "edited", amount := 20, occurredOn := "2024-06-01",
      categoryId := none, categoryName := none, categoryType := some .income,
      createdAt := "t4" } rfl rfl).2
    { id := 4, description := "edited", amount := 20, occurredOn := "2024-06-01",
      categoryId := none, createdAt := "t4" } (by decide) rfl

/-- C2: a successful category update rewrites the stored amount of every
transaction linked to the updated category to the sign dictated by the new
type (negative magnitude for expense, the magnitude itself for income) and
keeps every transaction not linked to it unchanged; no transaction is added
or removed. -/
theorem updateCategory_cascades_to_linked (db : DB) (id : Nat) (input : CategoryInput)
    (db' : DB) (c' : CategoryRow)
    (h : updateCategory db id input = (db', Except.ok c')) :
    db'.transactions.length = db.transactions.length ∧
    ∀ t ∈ db.transactions,
      (t.categoryId = some id →
        { t with amount := if input.type = .expense then -|t.amount| else |t.amount| }
          ∈ db'.transactions) ∧
      (t.categoryId ≠ some id → t ∈ db'.transactions) := by
  have hdb : db'.transactions = applyCascade input.type id db.transactions := by
    simp only [updateCategory] at h
    split at h
    · exact absurd (congrArg Prod.snd h) (by simp)
    · split at h
      · exact absurd (congrArg Prod.snd h) (by simp)
      · split at h
        · exact absurd (congrArg Prod.snd h) (by simp)
        · split at h
          · exact (congrArg (fun p => p.1.transactions) h).symm
          · exact absurd (congrArg Prod.snd h) (by simp)
  rw [hdb]
  refine ⟨by simp [applyCascade], ?_⟩
  intro t ht
  have hm := List.mem_map_of_mem
    (fun t => if t.categoryId = some id then { t with amount := cascadeAmount input.type t.amount } else t) ht
  have hm' : (if t.categoryId = some id
      then { t with amount := cascadeAmount input.type t.amount } else t)
      ∈ applyCascade input.type id db.transactions := hm
  constructor
  · intro hlink
    rw [if_pos hlink] at hm'
    exact hm'
  · intro hnot
    rw [if_neg hnot] at hm'
    exact hm'

/-- Witness for C2: retyping the income category of `payDb` to expense flips
its linked transaction to -100 and keeps the unlinked transaction at -7. -/
theorem updateCategory_cascades_to_linked_witness :
    ({ id := 1, description := "salary", amount := -100, occurredOn := "2024-03-01",
       categoryId := some 1, createdAt := "t0" } : TransactionRow) ∈
      (updateCategory payDb 1 payExpenseInput).1.transactions ∧
    ({ id := 2, description := "cash gift", amount := -7, occurredOn := "2024-03-02",
       categoryId := none, createdAt := "t0" } : TransactionRow) ∈
      (updateCategory payDb 1 payExpenseInput).1.transactions := by
  have h := updateCategory_cascades_to_linked payDb 1 payExpenseInput
    (updateCategory payDb 1 payExpenseInput).1
    { id := 1, name := "Pay", type := .expense, color := "#c62828", createdAt := "t0" } rfl
  constructor
  · have hm := (h.2
        { id := 1, description := "salary", amount := 100,
          occurredOn := "2024-03-01", categoryId := some 1, createdAt := "t0" }
        (by decide)).1 rfl
    simpa [payExpenseInput] using hm
  · exact (h.2
      { id := 2, description := "cash gift", amount := -7,
        occurredOn := "2024-03-02", categoryId := none, createdAt := "t0" }
      (by decide)).2 (by decide)

/-- Every month length lies between 28 and 31 days. -/
theorem monthLength_bounds (y m : Int) : 28 ≤ monthLength y m ∧ monthLength y m ≤ 31 := by
  unfold monthLength
  split
  · split <;> omega
  · split <;> omega

/-- Every month-index month length lies between 28 and 31 days. -/
theorem dimYM_bounds (ym : Int) : 28 ≤ dimYM ym ∧ dimYM ym ≤ 31 :=
  monthLength_bounds _ _

/-- Day normalization is the identity on an in-range day. -/
theorem normDayAux_in_range (fuel : Nat) (ym d : Int)
    (h1 : 1 ≤ d) (h2 : d ≤ dimYM ym) :
    normDayAux (fuel + 1) ym d = (ym, d) := by
  simp only [normDayAux]
  rw [if_neg (by omega), if_neg (by omega)]

/-- Day 1 of any month is already normalized. -/
theorem normDay_day_one (ym : Int) : normDay ym 1 = (ym, 1) := by
  have hb := dimYM_bounds ym
  show normDayAux 3 ym 1 = (ym, 1)
  exact normDayAux_in_range 2 ym 1 (by omega) (by omega)

/-- Day 0 of any month normalizes to the last day of the previous month. -/
theorem normDay_day_zero (ym : Int) : normDay ym 0 = (ym - 1, dimYM (ym - 1)) := by
  have hb := dimYM_bounds (ym - 1)
  show normDayAux 2 ym 0 = (ym - 1, dimYM (ym - 1))
  simp only [normDayAux]
  rw [if_pos (by omega), zero_add]
  exact normDayAux_in_range 0 (ym - 1) (dimYM (ym - 1)) (by omega) (by omega)

/-- Splitting a month index built from a year and an in-range month recovers
both components. -/
theorem monthIndex_split (y m : Int) (h1 : 0 ≤ m) (h2 : m ≤ 11) :
    (y * 12 + m).fdiv 12 = y ∧ (y * 12 + m).emod 12 = m := by
  have hq : (y * 12 + m).fdiv 12 = (y * 12 + m) / 12 := Int.fdiv_eq_ediv _ (by norm_num)
  have hr : (y * 12 + m).emod 12 = (y * 12 + m) % 12 := rfl
  rw [hq, hr]
  omega

/-- Date rendering of a month index built from a year and an in-range month. -/
theorem toDateOnlyString_split (y m d : Int) (h1 : 0 ≤ m) (h2 : m ≤ 11) :
    toDateOnlyString (y * 12 + m) d = pad4 y ++ "-" ++ pad2 (m + 1) ++ "-" ++ pad2 d := by
  obtain ⟨hq, hr⟩ := monthIndex_split y m h1 h2
  unfold toDateOnlyString
  rw [hq, hr]

/-- Month length of a month index built from a year and an in-range month. -/
theorem dimYM_split (y m : Int) (h1 : 0 ≤ m) (h2 : m ≤ 11) :
    dimYM (y * 12 + m) = monthLength y m := by
  obtain ⟨hq, hr⟩ := monthIndex_split y m h1 h2
  unfold dimYM
  rw [hq, hr]

/-- C5 (amended): for every date with full year 0..9999 and month 0..11 (JS
convention), `monthBounds` returns the first and last calendar day of the
effective month as fixed-width YYYY-MM-DD strings, where the effective year
`Y` is the target's year after the JS Date constructor's two-digit-year
remap (1900+y for years 0..99, the year itself for 100..9999, so targets in
years 100..9999 get their own month's first and last day); the month length
used is always 28..31 days, and for February it is 29 exactly when the
effective year is a leap year and 28 otherwise. -/
theorem monthBounds_first_and_last_day (y m Y : Int)
    (_hy : 0 ≤ y ∧ y ≤ 9999) (hm : 0 ≤ m ∧ m ≤ 11)
    (hY : Y = if 0 ≤ y ∧ y ≤ 99 then 1900 + y else y) :
    monthBounds y m = (pad4 Y ++ "-" ++ pad2 (m + 1) ++ "-" ++ pad2 1,
      pad4 Y ++ "-" ++ pad2 (m + 1) ++ "-" ++ pad2 (monthLength Y m)) ∧
    (100 ≤ y → Y = y) ∧
    28 ≤ monthLength Y m ∧ monthLength Y m ≤ 31 ∧
    (m = 1 → monthLength Y m = (if isLeap Y then 29 else 28)) := by
  obtain ⟨hm1, hm2⟩ := hm
  have hb := monthLength_bounds Y m
  refine ⟨?_, ?_, hb.1, hb.2, ?_⟩
  · simp only [monthBounds, mkJSDate]
    rw [← hY, normDay_day_one, normDay_day_zero]
    dsimp only
    have he : Y * 12 + (m + 1) - 1 = Y * 12 + m := by ring
    rw [he, dimYM_split Y m hm1 hm2, toDateOnlyString_split Y m 1 hm1 hm2,
      toDateOnlyString_split Y m (monthLength Y m) hm1 hm2]
  · intro h100
    rw [hY, if_neg (by omega)]
  · intro h1
    rw [h1]
    unfold monthLength
    simp

/-- Witness for C5: February bounds in a leap year and in a non-leap year
(both outside the two-digit remap range, so the effective year is the
target's own). -/
theorem monthBounds_first_and_last_day_witness :
    monthBounds 2024 1 = ("2024-02-01", "2024-02-29") ∧
    monthBounds 2023 1 = ("2023-02-01", "2023-02-28") := by
  have h24 := (monthBounds_first_and_last_day 2024 1 2024
    (by norm_num) (by norm_num) (by decide)).1
  have h23 := (monthBounds_first_and_last_day 2023 1 2023
    (by norm_num) (by norm_num) (by decide)).1
  rw [h24, h23]
  exact ⟨by decide, by decide⟩

/-- C5 (counterexample): for a target date in year 50 the program's bounds
are the first and last day of March 1950 — the JS Date constructor remaps
years 0..99 to 1900+y — not of the target's own month, whose first day
renders as "0050-03-01"; likewise a year-0 February target gets the 28-day
February of 1900 (not leap) rather than the leap February of year 0. -/
theorem monthBounds_two_digit_year_cex :
    monthBounds 50 2 = ("1950-03-01", "1950-03-31") ∧
    monthBounds 50 2 ≠ ("0050-03-01", "0050-03-31") ∧
    toDateOnlyString (50 * 12 + 2) 1 = "0050-03-01" ∧
    monthBounds 0 1 = ("1900-02-01", "1900-02-28") ∧
    isLeap 0 = true := by
  refine ⟨by decide, by decide, by decide, by decide, by decide⟩

/-- Summing amounts through an if-else zero guard equals summing the amounts
of the rows passing the guard (the CASE WHEN ... ELSE 0 END pattern of the
totals query). -/
theorem mapIte_sum_eq_filter_sum (l : List TransactionRow) (p : TransactionRow → Prop)
    [DecidablePred p] :
    (l.map (fun t => if p t then t.amount else 0)).sum =
      ((l.filter (fun t => p t)).map (fun t => t.amount)).sum := by
  induction l with
  | nil => rfl
  | cons a l ih =>
    by_cases h : p a <;> simp [h, ih, List.filter_cons]

/-- C3: for every store and target month, `fetchMonthlyTotals` returns
income = the sum of the non-negative stored amounts of the transactions in
the month window, expenses = the absolute value of the sum of the negative
stored amounts in the window, and balance = income - expenses; on the spec's
example month (+1000, -200, -50) it yields {1000, 250, 750} and on a month
with no transactions it yields {0, 0, 0}, never a null. -/
theorem fetchMonthlyTotals_income_expenses_balance (db : DB) (y m : Int) :
    (fetchMonthlyTotals db (monthBounds y m).1 (monthBounds y m).2 =
      { income := (((db.transactions.filter
            (txInRange (monthBounds y m).1 (monthBounds y m).2)).filter
              (fun t => 0 ≤ t.amount)).map (fun t => t.amount)).sum,
        expenses := |(((db.transactions.filter
            (txInRange (monthBounds y m).1 (monthBounds y m).2)).filter
              (fun t => t.amount < 0)).map (fun t => t.amount)).sum|,
        balance := (((db.transactions.filter
            (txInRange (monthBounds y m).1 (monthBounds y m).2)).filter
              (fun t => 0 ≤ t.amount)).map (fun t => t.amount)).sum -
          |(((db.transactions.filter
            (txInRange (monthBounds y m).1 (monthBounds y m).2)).filter
              (fun t => t.amount < 0)).map (fun t => t.amount)).sum| }) ∧
    fetchMonthlyTotals marchDb (monthBounds 2024 2).1 (monthBounds 2024 2).2 =
      { income := 1000, expenses := 250, balance := 750 } ∧
    fetchMonthlyTotals emptyDb (monthBounds 2024 2).1 (monthBounds 2024 2).2 =
      { income := 0, expenses := 0, balance := 0 } := by
  refine ⟨?_, by decide, by decide⟩
  simp only [fetchMonthlyTotals]
  rw [mapIte_sum_eq_filter_sum _ (fun t => 0 ≤ t.amount),
    mapIte_sum_eq_filter_sum _ (fun t => t.amount < 0)]

/-- C7: every row of `fetchMonthlyTotalsByCategory` corresponds to an
existing category with at least one window transaction linked to it (so
uncategorized transactions are excluded), carries that category's name and
type, and shows the per-category sum of stored amounts — negated for expense
categories, as stored for income categories; every category with a window
transaction produces a row; and the rows are ordered by category type TEXT
descending, then by the raw stored sum descending. -/
theorem fetchMonthlyTotalsByCategory_spec (db : DB) (s e : String) :
    (∀ r ∈ fetchMonthlyTotalsByCategory db s e,
      ∃ c ∈ db.categories, r.categoryId = c.id ∧ r.categoryName = c.name ∧
        r.categoryType = c.type ∧ categoryHasTx db s e c.id = true ∧
        r.total = (if c.type = .expense then -(categorySum db s e c.id)
          else categorySum db s e c.id)) ∧
    (∀ c ∈ db.categories, categoryHasTx db s e c.id = true →
      ∃ r ∈ fetchMonthlyTotalsByCategory db s e, r.categoryId = c.id) ∧
    List.Pairwise (fun a b =>
      strLt (typeText b.categoryType) (typeText a.categoryType) = true ∨
        (typeText a.categoryType = typeText b.categoryType ∧
          (if b.categoryType = .expense then -b.total else b.total) ≤
            (if a.categoryType = .expense then -a.total else a.total)))
      (fetchMonthlyTotalsByCategory db s e) := by
  refine ⟨?_, ?_, ?_⟩
  · intro r hr
    unfold fetchMonthlyTotalsByCategory at hr
    obtain ⟨g, hg, hdisp⟩ := List.mem_map.mp hr
    have hg' : g ∈ (db.categories.filter (fun c => categoryHasTx db s e c.id)).map
        (fun c => (c, categorySum db s e c.id)) :=
      (List.Perm.mem_iff (List.perm_insertionSort catOrder _)).mp hg
    obtain ⟨c, hcf, hgc⟩ := List.mem_map.mp hg'
    obtain ⟨hcmem, hchas⟩ := List.mem_filter.mp hcf
    refine ⟨c, hcmem, ?_, ?_, ?_, hchas, ?_⟩ <;> rw [← hdisp, ← hgc]
  · intro c hc hhas
    have h1 : c ∈ db.categories.filter (fun c => categoryHasTx db s e c.id) :=
      List.mem_filter.mpr ⟨hc, hhas⟩
    have h2 : (c, categorySum db s e c.id) ∈
        (db.categories.filter (fun c => categoryHasTx db s e c.id)).map
          (fun c => (c, categorySum db s e c.id)) :=
      List.mem_map_of_mem _ h1
    have h3 := (List.Perm.mem_iff (List.perm_insertionSort catOrder _)).mpr h2
    have h4 := List.mem_map_of_mem (fun g : CategoryRow × Int =>
      ({ categoryId := g.1.id, categoryName := g.1.name, categoryType := g.1.type,
         total := if g.1.type = .expense then -g.2 else g.2 } : CategoryMonthlyTotal)) h3
    exact ⟨_, h4, rfl⟩
  · have hs := List.sorted_insertionSort catOrder
      ((db.categories.filter (fun c => categoryHasTx db s e c.id)).map
        (fun c => (c, categorySum db s e c.id)))
    unfold fetchMonthlyTotalsByCategory
    refine List.Pairwise.map _ ?_ hs
    intro a b hab
    rcases hab with h | ⟨h1, h2⟩
    · exact Or.inl h
    · right
      refine ⟨h1, ?_⟩
      by_cases hea : a.1.type = .expense <;> by_cases heb : b.1.type = .expense <;>
        simp [hea, heb] <;> omega

/-- Witness for C7: the expense category of the mixed store produces a row in
the March 2024 breakdown. -/
theorem fetchMonthlyTotalsByCategory_spec_witness :
    ∃ r ∈ fetchMonthlyTotalsByCategory mixedDb "2024-03-01" "2024-03-31",
      r.categoryId = 2 :=
  (fetchMonthlyTotalsByCategory_spec mixedDb "2024-03-01" "2024-03-31").2.1
    { id := 2, name := "Groceries", type := .expense, color := "#c62828", createdAt := "t0" }
    (by decide) (by decide)
